import Mathlib

/-!
Verification development for the ptm-chat-api repository.

Shallow embedding of the conversation-context assembly pipeline:
`limiter.py`, `services/url_scraper.py`, `services/piano_analysis.py`,
`services/openai_chat.py`, `routes/chat.py`, `main.py`.

Modelling conventions:
* Python dicts with a fixed key set become structures whose optional fields
  are `Option`; an absent key and a key bound to `None` are identified.
* Python truthiness of a string is `s != ""`; of a list, non-emptiness; of a
  dict, being different from the all-absent record.
* External network calls (OpenAI chat, Gemini vision, HTTP fetches) are
  oracle parameters; endpoint models additionally return how many times each
  oracle was invoked.
* Machine strings are Lean `String`; whitespace classes are restricted to
  the ASCII whitespace characters, which is what every theorem below
  exercises.
-/

namespace PTM

/-- ASCII whitespace, as matched by Python regular-expression class \s
and by str.strip on ASCII input. -/
def pyWhitespace (c : Char) : Bool :=
  c = ' ' || c = '\t' || c = '\n' || c = '\r' || c = Char.ofNat 11 || c = Char.ofNat 12

/-- Python str.strip(): drop whitespace from both ends. -/
def pyStrip (s : String) : String :=
  String.mk (((s.data.dropWhile pyWhitespace).reverse.dropWhile pyWhitespace).reverse)

/-- Does `pat` occur at the head of the second list? -/
def headMatches : List Char → List Char → Bool
  | [], _ => true
  | _ :: _, [] => false
  | p :: ps, c :: cs => c = p && headMatches ps cs

/-- Occurrence of `pat` anywhere in a character list. -/
def hasSubAux (pat : List Char) : List Char → Bool
  | [] => pat.isEmpty
  | c :: cs => headMatches pat (c :: cs) || hasSubAux pat cs

/-- Python substring test `pat in s`. -/
def hasSub (s pat : String) : Bool :=
  hasSubAux pat.data s.data

/-- Python str.lower() on ASCII content. -/
def pyLower (s : String) : String :=
  String.mk (s.data.map Char.toLower)

/-- Python truthiness of an optional string: absent or empty is falsy. -/
def pyTruthyStr (o : Option String) : Bool :=
  (o.getD "") ≠ ""

/-- The last `n` elements of a list (Python `l[-n:]` when `l` is long enough). -/
def lastN (n : Nat) (l : List α) : List α :=
  l.drop (l.length - n)

/-! ## limiter.py -/

/-- limiter.py: MAX_ANALYSES_PER_DAY = 3. -/
def MAX_ANALYSES_PER_DAY : Nat := 3

/-- One entry of the module-level dict `_analysis_counts`; a calendar date is
modelled as an abstract day number. -/
structure QuotaRecord where
  date : Nat
  count : Nat
deriving DecidableEq, Repr

/-- State of `_analysis_counts`: per-IP optional record. -/
def QuotaState := String → Option QuotaRecord

/-- limiter.can_analyze: true when no record, the record is stale, or the
count is below the daily cap. -/
def can_analyze (today : Nat) (s : QuotaState) (ip : String) : Bool :=
  match s ip with
  | none => true
  | some r => if r.date ≠ today then true else decide (r.count < MAX_ANALYSES_PER_DAY)

/-- limiter.record_analysis: reset to 1 on a fresh or stale record, else
increment in place. -/
def record_analysis (today : Nat) (s : QuotaState) (ip : String) : QuotaState :=
  match s ip with
  | none => fun k => if k = ip then some ⟨today, 1⟩ else s k
  | some r =>
    if r.date ≠ today then fun k => if k = ip then some ⟨today, 1⟩ else s k
    else fun k => if k = ip then some ⟨r.date, r.count + 1⟩ else s k

/-- limiter.analyses_remaining: a pure read paired with the (unchanged)
module state; the Python body performs no write to `_analysis_counts`.
`max(0, MAX - count)` is truncated subtraction on `Nat`. -/
def analyses_remaining (today : Nat) (s : QuotaState) (ip : String) : Nat × QuotaState :=
  (match s ip with
   | none => MAX_ANALYSES_PER_DAY
   | some r => if r.date ≠ today then MAX_ANALYSES_PER_DAY
               else MAX_ANALYSES_PER_DAY - r.count,
   s)

/-- A sequence of `analyses_remaining` calls (each with its own day and key),
threaded through the quota state. -/
def applyRemaining (calls : List (Nat × String)) (s : QuotaState) : QuotaState :=
  calls.foldl (fun st c => (analyses_remaining c.1 st c.2).2) s

/-! ## url_scraper.py : find_urls -/

/-- Case-insensitive character comparison (regex IGNORECASE). -/
def lowEq (c target : Char) : Bool := c.toLower = target

/-- Character class of URL_PATTERN in url_scraper.py: everything except
whitespace, angle brackets, double quote, single quote and the closing
parenthesis. -/
def srcUrlChar (c : Char) : Bool :=
  !(pyWhitespace c || c = '<' || c = '>' || c = '"' || c = Char.ofNat 39 || c = ')')

/-- Character class as worded by the claim: non-whitespace, non-angle-bracket,
non-quote — without excluding the closing parenthesis. -/
def claimUrlChar (c : Char) : Bool :=
  !(pyWhitespace c || c = '<' || c = '>' || c = '"' || c = Char.ofNat 39)

/-- Try to match `https?://` (case-insensitive) followed by a non-empty
maximal run of `allowed` characters at the head of `cs`; on success return
the matched characters and the rest. -/
def matchUrlAt (allowed : Char → Bool) (cs : List Char) : Option (List Char × List Char) :=
  match cs with
  | c1 :: c2 :: c3 :: c4 :: rest =>
    if lowEq c1 'h' && lowEq c2 't' && lowEq c3 't' && lowEq c4 'p' then
      let schemeLen : Option Nat :=
        match rest with
        | c5 :: ':' :: '/' :: '/' :: _ => if lowEq c5 's' then some 8 else none
        | ':' :: '/' :: '/' :: _ => some 7
        | _ => none
      match schemeLen with
      | some n =>
        let run := (cs.drop n).takeWhile allowed
        if run.isEmpty then none
        else some (cs.take (n + run.length), cs.drop (n + run.length))
      | none => none
    else none
  | _ => none

/-- Left-to-right scan for non-overlapping matches (re.findall); the fuel is
an upper bound on the number of scan steps, each of which consumes at least
one character. -/
def scanUrls (allowed : Char → Bool) : Nat → List Char → List String
  | 0, _ => []
  | _, [] => []
  | fuel + 1, c :: rest =>
    match matchUrlAt allowed (c :: rest) with
    | some (m, remaining) => String.mk m :: scanUrls allowed fuel remaining
    | none => scanUrls allowed fuel rest

/-- url_scraper.find_urls: all matches of URL_PATTERN in the text. -/
def find_urls (text : String) : List String :=
  scanUrls srcUrlChar text.data.length text.data

/-- URL detection as worded by the claim (closing parenthesis allowed in the
token). -/
def findUrlsClaim (text : String) : List String :=
  scanUrls claimUrlChar text.data.length text.data

/-! ## Theorems: C9 and the C8 counterexample -/

/-- C9: for every client key and quota state, any number of
`analyses_remaining` calls, without `record_analysis`, leaves the quota state
unchanged, so every subsequent `can_analyze` call answers exactly as before. -/
theorem remaining_idempotent (calls : List (Nat × String)) (s : QuotaState) :
    applyRemaining calls s = s ∧
    ∀ (today : Nat) (ip : String),
      can_analyze today (applyRemaining calls s) ip = can_analyze today s ip := by
  have h : applyRemaining calls s = s := by
    induction calls generalizing s with
    | nil => rfl
    | cons c cs ih => simp only [applyRemaining, analyses_remaining] at ih ⊢; exact ih s
  exact ⟨h, fun today ip => by rw [h]⟩

/-- C8 counterexample: the source regex also excludes the closing parenthesis
from a URL token, so on a message with a parenthesised link the code finds
`https://a.b/c` while the character class worded by the claim would find `https://a.b/c)`. -/
theorem url_paren_counterexample :
    find_urls "(https://a.b/c) x" = ["https://a.b/c"] ∧
    findUrlsClaim "(https://a.b/c) x" = ["https://a.b/c)"] ∧
    find_urls "(https://a.b/c) x" ≠ findUrlsClaim "(https://a.b/c) x" := by
  refine ⟨by decide, by decide, by decide⟩

/-! ## piano_analysis.py : JSON parsing

A small executable model of `json.loads` (Python defaults: JSON values plus
the NaN / Infinity constants; strict strings rejecting raw control
characters).  Numbers are kept as their lexemes.  Python dicts are modelled
as key/value lists in textual order. -/

inductive JsonVal where
  | jnull : JsonVal
  | jbool : Bool → JsonVal
  | jnum : String → JsonVal
  | jstr : String → JsonVal
  | jarr : List JsonVal → JsonVal
  | jobj : List (String × JsonVal) → JsonVal

/-- JSON insignificant whitespace. -/
def jsonWs (c : Char) : Bool :=
  c = ' ' || c = '\t' || c = '\n' || c = '\r'

/-- Skip insignificant whitespace. -/
def skipWs (cs : List Char) : List Char :=
  cs.dropWhile jsonWs

/-- Value of one hexadecimal digit. -/
def hexVal (c : Char) : Option Nat :=
  if 48 ≤ c.toNat ∧ c.toNat ≤ 57 then some (c.toNat - 48)
  else if 97 ≤ c.toNat ∧ c.toNat ≤ 102 then some (c.toNat - 87)
  else if 65 ≤ c.toNat ∧ c.toNat ≤ 70 then some (c.toNat - 55)
  else none

/-- Body of a JSON string after the opening quote: characters and escapes up
to the closing quote; raw control characters are rejected (strict mode).
The fuel bounds the number of remaining input characters. -/
def parseStrAux : Nat → List Char → List Char → Option (String × List Char)
  | 0, _, _ => none
  | fuel + 1, acc, cs =>
    match cs with
    | '"' :: rest => some (String.mk acc.reverse, rest)
    | '\\' :: e :: rest =>
      (match e, rest with
       | '"', _ => parseStrAux fuel ('"' :: acc) rest
       | '\\', _ => parseStrAux fuel ('\\' :: acc) rest
       | '/', _ => parseStrAux fuel ('/' :: acc) rest
       | 'b', _ => parseStrAux fuel (Char.ofNat 8 :: acc) rest
       | 'f', _ => parseStrAux fuel (Char.ofNat 12 :: acc) rest
       | 'n', _ => parseStrAux fuel ('\n' :: acc) rest
       | 'r', _ => parseStrAux fuel ('\r' :: acc) rest
       | 't', _ => parseStrAux fuel ('\t' :: acc) rest
       | 'u', h1 :: h2 :: h3 :: h4 :: rest2 =>
         (match hexVal h1, hexVal h2, hexVal h3, hexVal h4 with
          | some a, some b, some c, some d =>
            parseStrAux fuel (Char.ofNat (((a * 16 + b) * 16 + c) * 16 + d) :: acc) rest2
          | _, _, _, _ => none)
       | _, _ => none)
    | c :: rest => if c.toNat < 32 then none else parseStrAux fuel (c :: acc) rest
    | [] => none

/-- Fractional part `.digits`, not consumed when absent (regex optional
group). -/
def parseFracPart (cs : List Char) : List Char × List Char :=
  match cs with
  | '.' :: t =>
    let ds := t.takeWhile Char.isDigit
    if ds.isEmpty then ([], cs) else ('.' :: ds, t.dropWhile Char.isDigit)
  | _ => ([], cs)

/-- Exponent part, not consumed when incomplete. -/
def parseExpPart (cs : List Char) : List Char × List Char :=
  match cs with
  | e :: t =>
    if e = 'e' || e = 'E' then
      let (sgn, t2) : List Char × List Char :=
        match t with
        | '+' :: u => (['+'], u)
        | '-' :: u => (['-'], u)
        | _ => ([], t)
      let ds := t2.takeWhile Char.isDigit
      if ds.isEmpty then ([], cs)
      else (e :: (sgn ++ ds), t2.dropWhile Char.isDigit)
    else ([], cs)
  | [] => ([], cs)

/-- JSON number lexeme: `-?(0|[1-9][0-9]*)(.d+)?([eE][+-]?d+)?`. -/
def parseNumber (cs : List Char) : Option (String × List Char) :=
  let (sign, cs1) : List Char × List Char :=
    match cs with
    | '-' :: t => (['-'], t)
    | _ => ([], cs)
  match cs1 with
  | c :: t =>
    let intPart : Option (List Char × List Char) :=
      if c = '0' then some ([c], t)
      else if c.isDigit then some (c :: t.takeWhile Char.isDigit, t.dropWhile Char.isDigit)
      else none
    match intPart with
    | some (ip, rest1) =>
      let (fp, rest2) := parseFracPart rest1
      let (ep, rest3) := parseExpPart rest2
      some (String.mk (sign ++ ip ++ fp ++ ep), rest3)
    | none => none
  | [] => none

/-- Members of a JSON object after the opening brace (at least one member);
`pv` parses one value.  The fuel bounds the number of members. -/
def parseMembers (pv : List Char → Option (JsonVal × List Char)) :
    Nat → List (String × JsonVal) → List Char → Option (List (String × JsonVal) × List Char)
  | 0, _, _ => none
  | fuel + 1, acc, cs =>
    match skipWs cs with
    | '"' :: rest =>
      match parseStrAux (rest.length + 1) [] rest with
      | some (key, rest1) =>
        match skipWs rest1 with
        | ':' :: rest2 =>
          match pv (skipWs rest2) with
          | some (v, rest3) =>
            match skipWs rest3 with
            | ',' :: rest4 => parseMembers pv fuel (acc ++ [(key, v)]) rest4
            | '}' :: rest4 => some (acc ++ [(key, v)], rest4)
            | _ => none
          | none => none
        | _ => none
      | none => none
    | _ => none

/-- Items of a JSON array after the opening bracket (at least one item). -/
def parseItems (pv : List Char → Option (JsonVal × List Char)) :
    Nat → List JsonVal → List Char → Option (List JsonVal × List Char)
  | 0, _, _ => none
  | fuel + 1, acc, cs =>
    match pv (skipWs cs) with
    | some (v, rest) =>
      match skipWs rest with
      | ',' :: rest1 => parseItems pv fuel (acc ++ [v]) rest1
      | ']' :: rest1 => some (acc ++ [v], rest1)
      | _ => none
    | none => none

/-- Drop an exact literal from the head of the input. -/
def dropLit : List Char → List Char → Option (List Char)
  | [], cs => some cs
  | p :: ps, c :: cs => if c = p then dropLit ps cs else none
  | _ :: _, [] => none

/-- The constant literals accepted by Python json.loads (true, false, null,
NaN, Infinity, -Infinity) and, failing those, a number. -/
def parseLit (cs : List Char) : Option (JsonVal × List Char) :=
  match dropLit ['t', 'r', 'u', 'e'] cs with
  | some rest => some (JsonVal.jbool true, rest)
  | none =>
  match dropLit ['f', 'a', 'l', 's', 'e'] cs with
  | some rest => some (JsonVal.jbool false, rest)
  | none =>
  match dropLit ['n', 'u', 'l', 'l'] cs with
  | some rest => some (JsonVal.jnull, rest)
  | none =>
  match dropLit ['N', 'a', 'N'] cs with
  | some rest => some (JsonVal.jnum "NaN", rest)
  | none =>
  match dropLit ['I', 'n', 'f', 'i', 'n', 'i', 't', 'y'] cs with
  | some rest => some (JsonVal.jnum "Infinity", rest)
  | none =>
  match dropLit ['-', 'I', 'n', 'f', 'i', 'n', 'i', 't', 'y'] cs with
  | some rest => some (JsonVal.jnum "-Infinity", rest)
  | none => (parseNumber cs).map (fun p => (JsonVal.jnum p.1, p.2))

/-- Body of a JSON object after the opening brace. -/
def parseObjBody (pv : List Char → Option (JsonVal × List Char)) (rest : List Char) :
    Option (JsonVal × List Char) :=
  match skipWs rest with
  | '}' :: rest1 => some (JsonVal.jobj [], rest1)
  | _ =>
    match parseMembers pv (rest.length + 1) [] rest with
    | some (flds, rest1) => some (JsonVal.jobj flds, rest1)
    | none => none

/-- Body of a JSON array after the opening bracket. -/
def parseArrBody (pv : List Char → Option (JsonVal × List Char)) (rest : List Char) :
    Option (JsonVal × List Char) :=
  match skipWs rest with
  | ']' :: rest1 => some (JsonVal.jarr [], rest1)
  | _ =>
    match parseItems pv (rest.length + 1) [] rest with
    | some (items, rest1) => some (JsonVal.jarr items, rest1)
    | none => none

/-- One JSON value at the head of the input (whitespace already skipped);
the fuel bounds the nesting depth. -/
def parseValue : Nat → List Char → Option (JsonVal × List Char)
  | 0, _ => none
  | fuel + 1, cs =>
    match cs with
    | [] => none
    | c :: rest =>
      if c = '{' then parseObjBody (parseValue fuel) rest
      else if c = '[' then parseArrBody (parseValue fuel) rest
      else if c = '"' then
        match parseStrAux (rest.length + 1) [] rest with
        | some (s, rest1) => some (JsonVal.jstr s, rest1)
        | none => none
      else parseLit cs

/-- Model of `json.loads`: exactly one value, with only whitespace around it. -/
def jsonLoads (s : String) : Option JsonVal :=
  match parseValue (s.length + 1) (skipWs s.data) with
  | some (v, rest) => if (skipWs rest).isEmpty then some v else none
  | none => none

/-! ## piano_analysis.py : parse_gemini_json -/

/-- The backquote character. -/
def backquote : Char := Char.ofNat 96

/-- First substitution in parse_gemini_json: remove one leading code fence
(three backquotes, an optional literal `json`, and the following whitespace
run). -/
def stripLeadingFence (s : String) : String :=
  match s.data with
  | a :: b :: c :: rest =>
    if a = backquote && b = backquote && c = backquote then
      let rest1 : List Char :=
        match rest with
        | 'j' :: 's' :: 'o' :: 'n' :: t => t
        | _ => rest
      String.mk (rest1.dropWhile pyWhitespace)
    else s
  | _ => s

/-- Second substitution: remove a trailing code fence (an optional preceding
newline, three backquotes, trailing whitespace). -/
def stripTrailingFence (s : String) : String :=
  let rev1 := s.data.reverse.dropWhile pyWhitespace
  match rev1 with
  | a :: b :: c :: rest =>
    if a = backquote && b = backquote && c = backquote then
      match rest with
      | '\n' :: rest2 => String.mk rest2.reverse
      | _ => String.mk rest.reverse
    else s
  | _ => s

/-- The regex search for a brace-delimited region: from the first opening
brace to the last closing brace, provided the latter comes after the
former. -/
def braceSpan (t : String) : Option String :=
  let cs := t.data
  let i := (cs.takeWhile (fun c => !(c = '{'))).length
  let k := (cs.reverse.takeWhile (fun c => !(c = '}'))).length
  if i + k + 1 < cs.length then
    some (String.mk ((cs.drop i).take (cs.length - k - i)))
  else none

/-- piano_analysis.parse_gemini_json: strip, remove code fences, extract the
brace-delimited region, parse it; on any failure fall back to a dict whose
only field is commentaire_expert bound to the original response text. -/
def parse_gemini_json (response_text : String) : JsonVal :=
  let text := pyStrip response_text
  let text := stripTrailingFence (stripLeadingFence text)
  match braceSpan text with
  | some span =>
    match jsonLoads span with
    | some v => v
    | none => JsonVal.jobj [("commentaire_expert", JsonVal.jstr response_text)]
  | none => JsonVal.jobj [("commentaire_expert", JsonVal.jstr response_text)]

/-- The first brace-delimited JSON object of a text, as the claim words it:
parse one JSON value starting at the first opening brace.  Claim-side
definition only, for comparison with the source behaviour. -/
def firstJsonObject (t : String) : Option JsonVal :=
  let tail := t.data.dropWhile (fun c => !(c = '{'))
  match parseValue (tail.length + 1) tail with
  | some (v, _) => some v
  | none => none

/-! ## Theorems: C10 -/

/-- When the takeWhile prefix is proper, the remainder starts with a
character refuting the predicate. -/
lemma drop_takeWhile_head (p : Char → Bool) (l : List Char)
    (h : (l.takeWhile p).length < l.length) :
    ∃ c r, l.drop (l.takeWhile p).length = c :: r ∧ p c = false := by
  induction l with
  | nil => simp at h
  | cons c t ih =>
    by_cases hc : p c
    · simp only [List.takeWhile_cons, hc, if_true, List.length_cons, List.drop_succ_cons] at h ⊢
      exact ih (by omega)
    · refine ⟨c, t, ?_, by simpa using hc⟩
      simp [List.takeWhile_cons, hc]

/-- A successful parse that starts at an opening brace yields an object. -/
lemma parseValue_brace {f : Nat} {cs r : List Char} {v : JsonVal}
    (h : parseValue f ('{' :: cs) = some (v, r)) :
    ∃ flds, v = JsonVal.jobj flds := by
  cases f with
  | zero => exact Option.noConfusion h
  | succ f =>
    have h' : parseObjBody (parseValue f) cs = some (v, r) := h
    unfold parseObjBody at h'
    split at h'
    · obtain ⟨h1, -⟩ := Prod.mk.inj (Option.some.inj h')
      exact ⟨[], h1.symm⟩
    · split at h'
      · obtain ⟨h1, -⟩ := Prod.mk.inj (Option.some.inj h')
        exact ⟨_, h1.symm⟩
      · exact absurd h' (by simp)

/-- The brace-delimited take of the remainder after the first opening brace
starts with that opening brace. -/
lemma span_head (cs : List Char) (k : Nat)
    (h : (cs.takeWhile (fun c => !(c = '{'))).length + k + 1 < cs.length) :
    ∃ r, (cs.drop (cs.takeWhile (fun c => !(c = '{'))).length).take
        (cs.length - k - (cs.takeWhile (fun c => !(c = '{'))).length) = '{' :: r := by
  obtain ⟨c, rr, hd, hp⟩ := drop_takeWhile_head (fun c => !(c = '{')) cs (by omega)
  have hc : c = '{' := by simpa using hp
  refine ⟨rr.take (cs.length - k - (cs.takeWhile (fun c => !(c = '{'))).length - 1), ?_⟩
  rw [hd, hc]
  have he : cs.length - k - (cs.takeWhile (fun c => !(c = '{'))).length =
      (cs.length - k - (cs.takeWhile (fun c => !(c = '{'))).length - 1) + 1 := by omega
  rw [he]
  rfl

/-- A span produced by `braceSpan` starts with an opening brace. -/
lemma braceSpan_head {t span : String} (h : braceSpan t = some span) :
    ∃ r, span.data = '{' :: r := by
  have h' : (if ((t.data.takeWhile (fun c => !(c = '{'))).length +
        (t.data.reverse.takeWhile (fun c => !(c = '}'))).length + 1 < t.data.length) then
        some (String.mk ((t.data.drop (t.data.takeWhile (fun c => !(c = '{'))).length).take
          (t.data.length - (t.data.reverse.takeWhile (fun c => !(c = '}'))).length -
            (t.data.takeWhile (fun c => !(c = '{'))).length)))
        else none) = some span := h
  split at h'
  case isTrue hc =>
    obtain ⟨r, hr⟩ :=
      span_head t.data (t.data.reverse.takeWhile (fun c => !(c = '}'))).length hc
    have hs := Option.some.inj h'
    exact ⟨r, by rw [← hs]; exact hr⟩
  case isFalse => exact absurd h' (by simp)

/-- A successful `jsonLoads` of a text starting with an opening brace is an
object. -/
lemma jsonLoads_obj {s : String} {v : JsonVal} (hd : ∃ r, s.data = '{' :: r)
    (h : jsonLoads s = some v) : ∃ flds, v = JsonVal.jobj flds := by
  obtain ⟨r, hr⟩ := hd
  unfold jsonLoads at h
  rw [hr] at h
  have hskip : skipWs ('{' :: r) = '{' :: r := by
    simp [skipWs, List.dropWhile_cons, jsonWs]
  rw [hskip] at h
  cases hpv : parseValue (s.length + 1) ('{' :: r) with
  | none => rw [hpv] at h; exact absurd h (by simp)
  | some p =>
    obtain ⟨w, rest⟩ := p
    rw [hpv] at h
    have h2 : (if (skipWs rest).isEmpty then some w else none) = some v := h
    split at h2
    · have hw : w = v := Option.some.inj h2
      obtain ⟨flds, hf⟩ := parseValue_brace hpv
      exact ⟨flds, by rw [← hw]; exact hf⟩
    · exact absurd h2 (by simp)

/-- Unfolding equation for parse_gemini_json. -/
lemma parse_gemini_json_eq (s : String) :
    parse_gemini_json s =
      match braceSpan (stripTrailingFence (stripLeadingFence (pyStrip s))) with
      | some span =>
        match jsonLoads span with
        | some v => v
        | none => JsonVal.jobj [("commentaire_expert", JsonVal.jstr s)]
      | none => JsonVal.jobj [("commentaire_expert", JsonVal.jstr s)] := rfl

/-- C10 (amended): for every input string, parse_gemini_json returns a
dictionary (never an exception): code fences are stripped, the span from the
first opening brace to the last closing brace is parsed when it forms valid
JSON, and whenever no such span exists, or the span is not valid JSON, the
result is the dictionary binding commentaire_expert to the raw response
text. -/
theorem parse_gemini_total_amended (s : String) :
    (∃ flds, parse_gemini_json s = JsonVal.jobj flds) ∧
    (braceSpan (stripTrailingFence (stripLeadingFence (pyStrip s))) = none →
      parse_gemini_json s = JsonVal.jobj [("commentaire_expert", JsonVal.jstr s)]) ∧
    (∀ span, braceSpan (stripTrailingFence (stripLeadingFence (pyStrip s))) = some span →
      jsonLoads span = none →
      parse_gemini_json s = JsonVal.jobj [("commentaire_expert", JsonVal.jstr s)]) := by
  refine ⟨?_, ?_, ?_⟩
  · cases hb : braceSpan (stripTrailingFence (stripLeadingFence (pyStrip s))) with
    | none =>
      exact ⟨[("commentaire_expert", JsonVal.jstr s)], by rw [parse_gemini_json_eq, hb]⟩
    | some span =>
      cases hj : jsonLoads span with
      | none =>
        refine ⟨[("commentaire_expert", JsonVal.jstr s)], ?_⟩
        rw [parse_gemini_json_eq, hb]
        show (match jsonLoads span with
          | some v => v
          | none => JsonVal.jobj [("commentaire_expert", JsonVal.jstr s)]) =
          JsonVal.jobj [("commentaire_expert", JsonVal.jstr s)]
        rw [hj]
      | some v =>
        obtain ⟨flds, hv⟩ := jsonLoads_obj (braceSpan_head hb) hj
        refine ⟨flds, ?_⟩
        rw [parse_gemini_json_eq, hb]
        show (match jsonLoads span with
          | some v => v
          | none => JsonVal.jobj [("commentaire_expert", JsonVal.jstr s)]) =
          JsonVal.jobj flds
        rw [hj]
        exact hv
  · intro hb
    rw [parse_gemini_json_eq, hb]
  · intro span hb hj
    rw [parse_gemini_json_eq, hb]
    show (match jsonLoads span with
      | some v => v
      | none => JsonVal.jobj [("commentaire_expert", JsonVal.jstr s)]) =
      JsonVal.jobj [("commentaire_expert", JsonVal.jstr s)]
    rw [hj]

/-- C10 witness: a response with no brace-delimited region degrades to the
commentaire_expert fallback dictionary. -/
theorem parse_gemini_total_amended_witness :
    parse_gemini_json "pas de JSON ici" =
      JsonVal.jobj [("commentaire_expert", JsonVal.jstr "pas de JSON ici")] :=
  (parse_gemini_total_amended "pas de JSON ici").2.1 (by decide)

/-- C10 counterexample: on a reply holding two JSON objects separated by
text, the first brace-delimited JSON object is valid, yet the code parses
the region from the first opening brace to the LAST closing brace, which is
invalid JSON, and falls back to the commentaire_expert dictionary — against
the claim that the first brace-delimited JSON object is parsed when valid. -/
theorem parse_gemini_first_object_counterexample :
    firstJsonObject "\x7b\"a\": 1\x7d piano \x7b\"b\": 2\x7d" =
      some (JsonVal.jobj [("a", JsonVal.jnum "1")]) ∧
    parse_gemini_json "\x7b\"a\": 1\x7d piano \x7b\"b\": 2\x7d" =
      JsonVal.jobj [("commentaire_expert",
        JsonVal.jstr "\x7b\"a\": 1\x7d piano \x7b\"b\": 2\x7d")] ∧
    parse_gemini_json "\x7b\"a\": 1\x7d piano \x7b\"b\": 2\x7d" ≠
      JsonVal.jobj [("a", JsonVal.jnum "1")] := by
  refine ⟨rfl, rfl, ?_⟩
  intro h
  rw [show parse_gemini_json "\x7b\"a\": 1\x7d piano \x7b\"b\": 2\x7d" =
      JsonVal.jobj [("commentaire_expert",
        JsonVal.jstr "\x7b\"a\": 1\x7d piano \x7b\"b\": 2\x7d")] from rfl] at h
  injection h with h1
  injection h1 with h2 h3
  injection h2 with h4 h5
  exact absurd h4 (by decide)

/-! ## Data model

The Analysis Record produced by the Vision Analyzer and consumed by
get_chat_response, as a structure of optional fields.  Scalar values are
modelled by their rendered text (Python f-string interpolation); list-valued
keys default to the empty list, matching `.get(key)` falsiness for both an
absent key and an empty list. -/

/-- A sub-score dict such as etat_general. -/
structure EtatDetail where
  score : Option String := none
  description : Option String := none
deriving DecidableEq, Repr

/-- One recommended-work item. -/
structure Travail where
  travail : Option String := none
  priorite : Option String := none
  cout_estime : Option String := none
deriving DecidableEq, Repr

/-- The valeur_marche_estimee dict. -/
structure ValeurMarche where
  sans_travaux : Option String := none
  avec_travaux : Option String := none
deriving DecidableEq, Repr

/-- The Analysis Record dict. -/
structure AnalysisRecord where
  marque_detectee : Option String := none
  modele_detecte : Option String := none
  annee_estimee : Option String := none
  verdict : Option String := none
  score : Option String := none
  type_mecanique : Option String := none
  recommandation_achat : Option String := none
  alertes : List String := []
  historique_marque : Option String := none
  etat_general : Option EtatDetail := none
  etat_clavier : Option EtatDetail := none
  etat_boitier : Option EtatDetail := none
  etat_mecanique_visible : Option EtatDetail := none
  problemes_detectes : List String := []
  points_positifs : List String := []
  travaux_recommandes : List Travail := []
  valeur_marche_estimee : Option ValeurMarche := none
  potentiel_restauration : Option String := none
  urgence_intervention : Option String := none
  recommandation_contextuelle : Option String := none
  prochaine_etape : Option String := none
  commentaire_expert : Option String := none
  photos_recues : List String := []
  photos_suggerees : List String := []
deriving DecidableEq, Repr

/-- The empty dict `\x7b\x7d`. -/
def emptyAnalysis : AnalysisRecord := {}

/-- Python truthiness of the expertise_result value: None and the empty dict
are falsy, any other dict truthy. -/
def truthyAnalysis (o : Option AnalysisRecord) : Bool :=
  match o with
  | none => false
  | some r => decide (r ≠ emptyAnalysis)

/-- One chat message (role-tagged). -/
structure Msg where
  role : String
  content : String
deriving DecidableEq, Repr

/-! ## openai_chat.py : rendering the Analysis Record -/

/-- One condition sub-score line: rendered only when the value is a
non-empty dict (`if etat and isinstance(etat, dict)`). -/
def renderEtat (label : String) (etat : Option EtatDetail) : List String :=
  match etat with
  | some e =>
    if e = ⟨none, none⟩ then []
    else ["**" ++ label ++ ":** " ++ e.score.getD "?" ++ "/10 — " ++ e.description.getD ""]
  | none => []

/-- The two value-estimate lines: rendered only when valeur_marche_estimee
is a non-empty dict (`if valeur:`). -/
def renderValeur (v : Option ValeurMarche) : List String :=
  match v with
  | some val =>
    if val = ⟨none, none⟩ then []
    else ["**Valeur sans travaux:** " ++ val.sans_travaux.getD "N/A",
          "**Valeur avec travaux:** " ++ val.avec_travaux.getD "N/A"]
  | none => []

/-- openai_chat.get_chat_response lines 55-136: the `lines` list built for
the expertise system block, in source order. -/
def renderExpertiseLines (er : AnalysisRecord) : List String :=
  let lines := [
    "## RÉSULTAT D\x27EXPERTISE PIANO (analyse Gemini)",
    "",
    "**Marque:** " ++ er.marque_detectee.getD "N/A",
    "**Modèle:** " ++ er.modele_detecte.getD "N/A",
    "**Âge estimé:** " ++ er.annee_estimee.getD "N/A",
    "**Verdict:** " ++ er.verdict.getD "N/A",
    "**Score global:** " ++ er.score.getD "N/A" ++ "/10",
    "**Type de mécanique:** " ++ er.type_mecanique.getD "Standard",
    "**Recommandation d\x27achat:** " ++ er.recommandation_achat.getD "N/A"]
  let lines := if er.alertes ≠ [] then
      lines ++ ["**⚠️ ALERTES:** " ++ String.intercalate ", " er.alertes]
    else lines
  let lines := if pyTruthyStr er.historique_marque then
      lines ++ ["**Historique de la marque:** " ++ er.historique_marque.getD ""]
    else lines
  let lines := lines ++ renderEtat "État général" er.etat_general
  let lines := lines ++ renderEtat "État du clavier" er.etat_clavier
  let lines := lines ++ renderEtat "État du boîtier" er.etat_boitier
  let lines := lines ++ renderEtat "Mécanique visible" er.etat_mecanique_visible
  let lines := if er.problemes_detectes ≠ [] then
      lines ++ ("**Problèmes détectés:**" :: er.problemes_detectes.map (fun p => "  • " ++ p))
    else lines
  let lines := if er.points_positifs ≠ [] then
      lines ++ ("**Points positifs:**" :: er.points_positifs.map (fun p => "  • " ++ p))
    else lines
  let lines := if pyTruthyStr er.historique_marque then
      lines ++ ["- Historique de la marque: " ++ er.historique_marque.getD ""]
    else lines
  let lines := if er.travaux_recommandes ≠ [] then
      lines ++ ("**Travaux recommandés:**" :: er.travaux_recommandes.map (fun t =>
        "  • " ++ t.travail.getD "" ++ " (priorité: " ++ t.priorite.getD "" ++
          ", coût: " ++ t.cout_estime.getD "" ++ ")"))
    else lines
  let lines := lines ++ renderValeur er.valeur_marche_estimee
  let lines := if pyTruthyStr er.potentiel_restauration then
      lines ++ ["**Potentiel de restauration:** " ++ er.potentiel_restauration.getD ""]
    else lines
  let lines := if pyTruthyStr er.urgence_intervention then
      lines ++ ["**Urgence d\x27intervention:** " ++ er.urgence_intervention.getD ""]
    else lines
  let lines := if pyTruthyStr er.recommandation_contextuelle then
      lines ++ ["**Recommandation contextuelle:** " ++ er.recommandation_contextuelle.getD ""]
    else lines
  let lines := if pyTruthyStr er.prochaine_etape then
      lines ++ ["**Prochaine étape recommandée:** " ++ er.prochaine_etape.getD ""]
    else lines
  let lines := lines ++ ["\n**Commentaire expert:** " ++ er.commentaire_expert.getD "N/A"]
  let lines := lines ++ ["",
    "Utilise TOUTES ces informations pour donner une réponse riche et détaillée au client. Mentionne l\x27historique de la marque, les points positifs, les problèmes, et les travaux recommandés. Sois conversationnel mais complet."]
  let lines := if er.photos_recues ≠ [] then
      lines ++ ["- Photos reçues du client: " ++ String.intercalate ", " er.photos_recues]
    else lines
  let lines := if er.photos_suggerees ≠ [] then
      lines ++ ["- Photos supplémentaires suggérées: " ++ String.intercalate ", " er.photos_suggerees]
    else lines ++ ["- Photos suffisantes, ne PAS en demander d\x27autres."]
  lines ++ ["",
    "Utilise ces informations pour personnaliser tes réponses. Ne demande PAS de photos que le client a déjà envoyées."]

/-- The expertise system block content: the lines joined by newlines. -/
def renderExpertiseBlock (er : AnalysisRecord) : String :=
  String.intercalate "\n" (renderExpertiseLines er)

/-! ## openai_chat.py : message assembly and history -/

/-- get_chat_response lines 51-149: the outbound messages list, built by
successive appends. -/
def buildMessages (system_prompt : String) (message : String)
    (expertise_result : Option AnalysisRecord) (listing_context : Option String)
    (history : List Msg) : List Msg :=
  let messages : List Msg := [⟨"system", system_prompt⟩]
  let messages := match expertise_result with
    | some er =>
      if er ≠ emptyAnalysis then messages ++ [⟨"system", renderExpertiseBlock er⟩]
      else messages
    | none => messages
  let messages := match listing_context with
    | some lc => if lc ≠ "" then messages ++ [⟨"system", lc⟩] else messages
    | none => messages
  let messages := messages ++ history
  messages ++ [⟨"user", message⟩]

/-- get_chat_response line 152: larger reply budget when an Analysis Record
is present. -/
def tokenLimit (expertise_result : Option AnalysisRecord) : Nat :=
  if truthyAnalysis expertise_result then 1200 else 500

/-- get_chat_response lines 166-174: append the user and assistant turns,
then trim to the last 20 entries when the history exceeds 20. -/
def historyStep (h : List Msg) (message reply : String) : List Msg :=
  let h2 := h ++ [⟨"user", message⟩, ⟨"assistant", reply⟩]
  if h2.length > 20 then lastN 20 h2 else h2

/-- openai_chat.get_chat_response: build the messages, call the Chat
Responder oracle, update the history of this session.  Returns the reply and the
new state of `conversation_history` (a map from session id to history). -/
def get_chat_response (system_prompt : String) (respond : List Msg → Nat → String)
    (message session_id : String) (expertise_result : Option AnalysisRecord)
    (listing_context : Option String) (store : String → List Msg) :
    String × (String → List Msg) :=
  let messages := buildMessages system_prompt message expertise_result listing_context
    (store session_id)
  let reply := respond messages (tokenLimit expertise_result)
  let newHist := historyStep (store session_id) message reply
  (reply, fun sid => if sid = session_id then newHist else store sid)

/-- Input of one /chat turn on a fixed session. -/
structure ChatTurn where
  message : String
  expertise_result : Option AnalysisRecord := none
  listing_context : Option String := none

/-- Run a sequence of turns on one session through get_chat_response,
starting from a given history store; returns the final store and the full
transcript (user and assistant entries in order). -/
def runChat (system_prompt : String) (respond : List Msg → Nat → String)
    (session_id : String) :
    List ChatTurn → (String → List Msg) → ((String → List Msg) × List Msg)
  | [], store => (store, [])
  | t :: ts, store =>
    let out := get_chat_response system_prompt respond t.message session_id
      t.expertise_result t.listing_context store
    let next := runChat system_prompt respond session_id ts out.2
    (next.1, ⟨"user", t.message⟩ :: ⟨"assistant", out.1⟩ :: next.2)

/-! ## Field groups of the expertise block, as listed by the spec -/

/-- Lead group: brand, model, era, verdict, score, mechanism type, purchase
recommendation (with the block header). -/
def leadLines (er : AnalysisRecord) : List String :=
  ["## RÉSULTAT D\x27EXPERTISE PIANO (analyse Gemini)",
   "",
   "**Marque:** " ++ er.marque_detectee.getD "N/A",
   "**Modèle:** " ++ er.modele_detecte.getD "N/A",
   "**Âge estimé:** " ++ er.annee_estimee.getD "N/A",
   "**Verdict:** " ++ er.verdict.getD "N/A",
   "**Score global:** " ++ er.score.getD "N/A" ++ "/10",
   "**Type de mécanique:** " ++ er.type_mecanique.getD "Standard",
   "**Recommandation d\x27achat:** " ++ er.recommandation_achat.getD "N/A"]

/-- Alerts group. -/
def alertLines (er : AnalysisRecord) : List String :=
  if er.alertes ≠ [] then ["**⚠️ ALERTES:** " ++ String.intercalate ", " er.alertes]
  else []

/-- Brand-history group (first rendering). -/
def histALines (er : AnalysisRecord) : List String :=
  if pyTruthyStr er.historique_marque then
    ["**Historique de la marque:** " ++ er.historique_marque.getD ""]
  else []

/-- The four condition sub-scores. -/
def etatLines (er : AnalysisRecord) : List String :=
  renderEtat "État général" er.etat_general ++
  renderEtat "État du clavier" er.etat_clavier ++
  renderEtat "État du boîtier" er.etat_boitier ++
  renderEtat "Mécanique visible" er.etat_mecanique_visible

/-- Problem list group. -/
def problemLines (er : AnalysisRecord) : List String :=
  if er.problemes_detectes ≠ [] then
    "**Problèmes détectés:**" :: er.problemes_detectes.map (fun p => "  • " ++ p)
  else []

/-- Positive-point list group. -/
def positifLines (er : AnalysisRecord) : List String :=
  if er.points_positifs ≠ [] then
    "**Points positifs:**" :: er.points_positifs.map (fun p => "  • " ++ p)
  else []

/-- Brand-history group, rendered a second time by the source. -/
def histBLines (er : AnalysisRecord) : List String :=
  if pyTruthyStr er.historique_marque then
    ["- Historique de la marque: " ++ er.historique_marque.getD ""]
  else []

/-- Recommended-work group. -/
def travauxLines (er : AnalysisRecord) : List String :=
  if er.travaux_recommandes ≠ [] then
    "**Travaux recommandés:**" :: er.travaux_recommandes.map (fun t =>
      "  • " ++ t.travail.getD "" ++ " (priorité: " ++ t.priorite.getD "" ++
        ", coût: " ++ t.cout_estime.getD "" ++ ")")
  else []

/-- Restoration potential, urgency, contextual recommendation, next step
(each only if present). -/
def optScalarLines (er : AnalysisRecord) : List String :=
  (if pyTruthyStr er.potentiel_restauration then
    ["**Potentiel de restauration:** " ++ er.potentiel_restauration.getD ""] else []) ++
  (if pyTruthyStr er.urgence_intervention then
    ["**Urgence d\x27intervention:** " ++ er.urgence_intervention.getD ""] else []) ++
  (if pyTruthyStr er.recommandation_contextuelle then
    ["**Recommandation contextuelle:** " ++ er.recommandation_contextuelle.getD ""] else []) ++
  (if pyTruthyStr er.prochaine_etape then
    ["**Prochaine étape recommandée:** " ++ er.prochaine_etape.getD ""] else [])

/-- Expert-comment group. -/
def commentLines (er : AnalysisRecord) : List String :=
  ["\n**Commentaire expert:** " ++ er.commentaire_expert.getD "N/A"]

/-- Closing instructions group (usage instruction, photo categories received
and still useful, final instruction). -/
def closingLines (er : AnalysisRecord) : List String :=
  ["",
   "Utilise TOUTES ces informations pour donner une réponse riche et détaillée au client. Mentionne l\x27historique de la marque, les points positifs, les problèmes, et les travaux recommandés. Sois conversationnel mais complet."] ++
  (if er.photos_recues ≠ [] then
    ["- Photos reçues du client: " ++ String.intercalate ", " er.photos_recues] else []) ++
  (if er.photos_suggerees ≠ [] then
    ["- Photos supplémentaires suggérées: " ++ String.intercalate ", " er.photos_suggerees]
   else ["- Photos suffisantes, ne PAS en demander d\x27autres."]) ++
  ["",
   "Utilise ces informations pour personnaliser tes réponses. Ne demande PAS de photos que le client a déjà envoyées."]

/-- Distributing a conditional append. -/
lemma ite_append_form {α} (c : Prop) [Decidable c] (a x : List α) :
    (if c then a ++ x else a) = a ++ (if c then x else []) := by
  split <;> simp

/-- Distributing a conditional append with two branches. -/
lemma ite_append_form2 {α} (c : Prop) [Decidable c] (a x y : List α) :
    (if c then a ++ x else a ++ y) = a ++ (if c then x else y) := by
  split <;> rfl

/-! ## Theorems: C4 and C7 -/

/-- C4 (amended): the expertise block presents the field groups in exactly
the order lead, alerts, brand history, condition sub-scores, problems,
positive points, brand history a second time, recommended work, value
estimates, optional scalars, expert comment, closing instructions — the
brand-history group is rendered twice by the source, not exactly once. -/
theorem render_order_amended (er : AnalysisRecord) :
    renderExpertiseLines er =
      leadLines er ++ alertLines er ++ histALines er ++ etatLines er ++
      problemLines er ++ positifLines er ++ histBLines er ++ travauxLines er ++
      renderValeur er.valeur_marche_estimee ++ optScalarLines er ++
      commentLines er ++ closingLines er := by
  simp only [renderExpertiseLines, leadLines, alertLines, histALines, etatLines,
    problemLines, positifLines, histBLines, travauxLines, optScalarLines,
    commentLines, closingLines, ite_append_form, ite_append_form2,
    List.append_assoc]

/-- A record whose brand history is present. -/
def histRecord : AnalysisRecord :=
  { historique_marque := some "Fondée à Hambourg en 1853." }

/-- C4 counterexample: with a brand history present, the rendered block
mentions the brand-history field group twice, refuting the claim that each
field group appears exactly once. -/
theorem render_brand_history_twice :
    (renderExpertiseLines histRecord).countP
      (fun l => hasSub l "Historique de la marque") = 2 := by
  decide

/-- The Analysis Record holding only commentaire_expert. -/
def onlyCommentRecord (c : String) : AnalysisRecord :=
  { commentaire_expert := some c }

/-- C7 (amended): rendering is total and, on a record holding only
commentaire_expert, produces exactly the non-empty block with the expert
comment and the placeholder lines of the mandatory lead fields; optional
scalar fields and list-valued fields are omitted entirely when absent. -/
theorem render_only_comment (c : String) :
    renderExpertiseLines (onlyCommentRecord c) =
      ["## RÉSULTAT D\x27EXPERTISE PIANO (analyse Gemini)",
       "",
       "**Marque:** N/A",
       "**Modèle:** N/A",
       "**Âge estimé:** N/A",
       "**Verdict:** N/A",
       "**Score global:** N/A/10",
       "**Type de mécanique:** Standard",
       "**Recommandation d\x27achat:** N/A",
       "\n**Commentaire expert:** " ++ c,
       "",
       "Utilise TOUTES ces informations pour donner une réponse riche et détaillée au client. Mentionne l\x27historique de la marque, les points positifs, les problèmes, et les travaux recommandés. Sois conversationnel mais complet.",
       "- Photos suffisantes, ne PAS en demander d\x27autres.",
       "",
       "Utilise ces informations pour personnaliser tes réponses. Ne demande PAS de photos que le client a déjà envoyées."] ∧
    renderExpertiseLines (onlyCommentRecord c) ≠ [] := by
  refine ⟨rfl, fun h => List.noConfusion h⟩

/-- C7 counterexample: on the record holding only commentaire_expert, the
absent scalar fields potentiel_restauration and historique_marque produce no
line at all (no placeholder), refuting "every absent scalar field is
replaced by a placeholder line rather than omitted". -/
theorem render_absent_scalar_omitted :
    (renderExpertiseLines (onlyCommentRecord "Bon piano.")).countP
      (fun l => hasSub l "Potentiel de restauration") = 0 ∧
    (renderExpertiseLines (onlyCommentRecord "Bon piano.")).countP
      (fun l => hasSub l "Historique de la marque") = 0 ∧
    (onlyCommentRecord "Bon piano.").potentiel_restauration = none ∧
    (onlyCommentRecord "Bon piano.").historique_marque = none := by
  refine ⟨by decide, by decide, rfl, rfl⟩

/-! ## Theorems: C3 (message order) -/

/-- The analysis system block of the outbound sequence, as the claim words
it: one system block rendering the Analysis Record when one exists (Python
truthiness). -/
def expertiseBlockClaim (expertise_result : Option AnalysisRecord) : List Msg :=
  match expertise_result with
  | some er => if er ≠ emptyAnalysis then [⟨"system", renderExpertiseBlock er⟩] else []
  | none => []

/-- The listing-context system block of the outbound sequence, as the claim
words it. -/
def listingBlockClaim (listing_context : Option String) : List Msg :=
  match listing_context with
  | some lc => if lc ≠ "" then [⟨"system", lc⟩] else []
  | none => []

/-- C3: the sequence sent to the Chat Responder is exactly the fixed system
instruction block, then the analysis system block when an Analysis Record
exists, then the listing-context block when one exists, then all prior
history entries of the session in original order, then the new user turn —
and nothing else. -/
theorem message_order (system_prompt : String) (respond : List Msg → Nat → String)
    (message session_id : String) (expertise_result : Option AnalysisRecord)
    (listing_context : Option String) (store : String → List Msg) :
    (get_chat_response system_prompt respond message session_id expertise_result
        listing_context store).1 =
      respond ([⟨"system", system_prompt⟩] ++ expertiseBlockClaim expertise_result ++
          listingBlockClaim listing_context ++ store session_id ++ [⟨"user", message⟩])
        (tokenLimit expertise_result) := by
  simp only [get_chat_response, buildMessages, expertiseBlockClaim, listingBlockClaim]
  congr 2
  cases expertise_result <;> cases listing_context <;>
    simp [List.append_assoc] <;> split_ifs <;> simp

/-! ## Theorems: C2 (history FIFO window) -/

/-- historyStep applied to the last-20 window of a list extends the list and
keeps the last-20 window. -/
lemma historyStep_lastN (l : List Msg) (m r : String) :
    historyStep (lastN 20 l) m r =
      lastN 20 (l ++ [⟨"user", m⟩, ⟨"assistant", r⟩]) := by
  simp only [historyStep, lastN, List.length_append, List.length_drop,
    List.length_cons, List.length_nil]
  by_cases hc : l.length ≤ 18
  · rw [if_neg (by omega)]
    have h0 : l.length - 20 = 0 := by omega
    have h2 : l.length + (0 + 1 + 1) - 20 = 0 := by omega
    rw [h0, h2, List.drop_zero, List.drop_zero]
  · rw [if_pos (by omega)]
    rw [List.drop_append_of_le_length (by rw [List.length_drop]; omega),
      List.drop_drop, List.drop_append_of_le_length (by omega)]
    congr 1
    congr 1
    omega

/-- Running turns through get_chat_response preserves the invariant that the
stored history of the session is the last-20 window of the transcript so
far. -/
lemma runChat_store (system_prompt : String) (respond : List Msg → Nat → String)
    (session_id : String) (ts : List ChatTurn) :
    ∀ (store : String → List Msg) (acc : List Msg),
      store session_id = lastN 20 acc →
      (runChat system_prompt respond session_id ts store).1 session_id =
        lastN 20 (acc ++ (runChat system_prompt respond session_id ts store).2) := by
  induction ts with
  | nil =>
    intro store acc h
    simpa [runChat] using h
  | cons t ts ih =>
    intro store acc h
    simp only [runChat]
    have hstep : (get_chat_response system_prompt respond t.message session_id
        t.expertise_result t.listing_context store).2 session_id =
        historyStep (store session_id) t.message
          (get_chat_response system_prompt respond t.message session_id
            t.expertise_result t.listing_context store).1 := by
      simp [get_chat_response]
    have hinv : (get_chat_response system_prompt respond t.message session_id
        t.expertise_result t.listing_context store).2 session_id =
        lastN 20 (acc ++ [⟨"user", t.message⟩,
          ⟨"assistant", (get_chat_response system_prompt respond t.message session_id
            t.expertise_result t.listing_context store).1⟩]) := by
      rw [hstep, h, historyStep_lastN]
    have := ih _ _ hinv
    rw [this]
    congr 1
    simp [List.append_assoc]

/-- C2: after any number of completed turns on a session (starting from the
fresh in-memory store), the stored history has at most 20 entries and is
exactly the most recent entries of the full transcript, in original append
order. -/
theorem history_fifo_window (system_prompt : String)
    (respond : List Msg → Nat → String) (session_id : String)
    (turns : List ChatTurn) :
    (runChat system_prompt respond session_id turns (fun _ => [])).1 session_id =
      lastN 20 (runChat system_prompt respond session_id turns (fun _ => [])).2 ∧
    ((runChat system_prompt respond session_id turns (fun _ => [])).1 session_id).length
      ≤ 20 := by
  have h := runChat_store system_prompt respond session_id turns (fun _ => []) []
    (by simp [lastN])
  simp only [List.nil_append] at h
  refine ⟨h, ?_⟩
  rw [h]
  simp only [lastN, List.length_drop]
  omega

/-! ## url_scraper.py : listing data and formatting -/

/-- Python s[:n] by code points. -/
def pyTake (s : String) (n : Nat) : String :=
  String.mk (s.data.take n)

/-- A scraped Listing Record.  The extractors always set source, url and
images; title, price, location and description are best-effort. -/
structure Listing where
  source : String := "annonce"
  url : String := ""
  title : Option String := none
  price : Option String := none
  location : Option String := none
  description : Option String := none
  images : List String := []
deriving DecidableEq, Repr

/-- url_scraper.format_listing_context: the listing-context block. -/
def format_listing_context (listing : Listing) : String :=
  let parts := ["Le client a partagé une annonce (" ++ listing.source ++ ") :"]
  let parts := if pyTruthyStr listing.title then
      parts ++ ["Titre : " ++ listing.title.getD ""] else parts
  let parts := if pyTruthyStr listing.price then
      parts ++ ["Prix demandé : " ++ listing.price.getD ""] else parts
  let parts := if pyTruthyStr listing.location then
      parts ++ ["Emplacement : " ++ listing.location.getD ""] else parts
  let parts := if pyTruthyStr listing.description then
      parts ++ ["Description : " ++ listing.description.getD ""] else parts
  let parts := if listing.images ≠ [] then
      parts ++ ["Photos dans l\x27annonce : " ++ toString listing.images.length] else parts
  let parts := parts ++ ["Lien : " ++ listing.url]
  String.intercalate "\n" parts

/-! ## routes/chat.py -/

/-- Python url.split with the slash separator. -/
def splitSlash : List Char → List (List Char)
  | [] => [[]]
  | c :: cs =>
    let rest := splitSlash cs
    if c = '/' then [] :: rest
    else match rest with
      | h :: t => (c :: h) :: t
      | [] => [[c]]

/-- chat.py line 71-72: the display source of a failed scrape — the third
slash-component of the URL (the network host), with kijiji hosts collapsed
to the brand name. -/
def fallbackSource (url : String) : String :=
  let parts := (splitSlash url.data).map String.mk
  let domain := if parts.length > 2 then parts.getD 2 "web" else "web"
  if hasSub (pyLower domain) "kijiji" then "Kijiji" else domain

/-- chat.py lines 73-79: the minimal fallback listing context when scraping
fails, naming the source and the raw URL. -/
def fallbackListingContext (url : String) : String :=
  "Le client a partagé un lien d\x27annonce (" ++ fallbackSource url ++ ") : " ++ url ++ "\n" ++
  "IMPORTANT : Nous n\x27avons pas pu récupérer les détails de l\x27annonce automatiquement. " ++
  "Demande au client de t\x27envoyer des photos du piano avec le bouton 📎 " ++
  "pour que tu puisses faire une évaluation. Mentionne aussi qu\x27une inspection " ++
  "avant achat est toujours recommandée."

/-- chat.py lines 51-57: the notes synthesized from the listing for the
secondary vision analysis. -/
def listingNotes (listing : Listing) : String :=
  let notes := "Achat potentiel — annonce en ligne (" ++ listing.source ++ ")"
  let notes := if pyTruthyStr listing.title then
      notes ++ "\nTitre: " ++ listing.title.getD "" else notes
  let notes := if pyTruthyStr listing.price then
      notes ++ "\nPrix demandé: " ++ listing.price.getD "" else notes
  if pyTruthyStr listing.description then
    notes ++ "\nDescription: " ++ pyTake (listing.description.getD "") 500
  else notes

/-- One encoded image, as passed to the Vision Analyzer. -/
structure ImgData where
  data : String
  mime_type : String
deriving DecidableEq, Repr

/-- Observable outcome of one /chat turn: the response fields, the messages
sent to the Chat Responder, which URL was scraped, how many times the
download and vision oracles were invoked, and the new history store. -/
structure ChatResult where
  reply : String
  expertise_result : Option AnalysisRecord
  listing_context : Option String
  messagesSent : List Msg
  scrapedUrl : Option String
  downloadCalls : Nat
  visionCalls : Nat
  newStore : String → List Msg

/-- routes/chat.chat_endpoint: URL detection, listing scrape with fallback,
conditional secondary vision analysis (failures swallowed), then the chat
call.  `scrape`, `download`, `analyze` and `respond` are the external
oracles. -/
def chat_endpoint (scrape : String → Option Listing)
    (download : List String → List ImgData)
    (analyze : List ImgData → Option String → Except String AnalysisRecord)
    (system_prompt : String) (respond : List Msg → Nat → String)
    (store : String → List Msg)
    (message session_id : String) (expertise_result0 : Option AnalysisRecord) :
    ChatResult :=
  match find_urls message with
  | [] =>
    let out := get_chat_response system_prompt respond message session_id
      expertise_result0 none store
    ⟨out.1, expertise_result0, none,
      buildMessages system_prompt message expertise_result0 none (store session_id),
      none, 0, 0, out.2⟩
  | u :: _ =>
    match scrape u with
    | some listing =>
      let listing_context := format_listing_context listing
      if listing.images ≠ [] ∧ ¬ truthyAnalysis expertise_result0 then
        let images_data := download listing.images
        if images_data ≠ [] then
          let expertise : Option AnalysisRecord :=
            match analyze images_data (some (listingNotes listing)) with
            | Except.ok r => some r
            | Except.error _ => expertise_result0
          let out := get_chat_response system_prompt respond message session_id
            expertise (some listing_context) store
          ⟨out.1, expertise, some listing_context,
            buildMessages system_prompt message expertise (some listing_context)
              (store session_id),
            some u, 1, 1, out.2⟩
        else
          let out := get_chat_response system_prompt respond message session_id
            expertise_result0 (some listing_context) store
          ⟨out.1, expertise_result0, some listing_context,
            buildMessages system_prompt message expertise_result0 (some listing_context)
              (store session_id),
            some u, 1, 0, out.2⟩
      else
        let out := get_chat_response system_prompt respond message session_id
          expertise_result0 (some listing_context) store
        ⟨out.1, expertise_result0, some listing_context,
          buildMessages system_prompt message expertise_result0 (some listing_context)
            (store session_id),
          some u, 0, 0, out.2⟩
    | none =>
      let lc := fallbackListingContext u
      let out := get_chat_response system_prompt respond message session_id
        expertise_result0 (some lc) store
      ⟨out.1, expertise_result0, some lc,
        buildMessages system_prompt message expertise_result0 (some lc) (store session_id),
        some u, 0, 0, out.2⟩

/-! ## routes/chat.py : /chat-upload, with main.py rate limiting -/

/-- One uploaded multipart image. -/
structure UploadImage where
  content_type : String
  data : String
deriving DecidableEq, Repr

/-- routes/chat.py: accepted MIME types. -/
def ALLOWED_IMAGE_TYPES : List String :=
  ["image/jpeg", "image/png", "image/webp", "image/gif"]

/-- routes/chat.py: MAX_IMAGES = 3. -/
def MAX_IMAGES : Nat := 3

/-- main.rate_limit_handler: the fixed throttling message returned on
RateLimitExceeded. -/
def rateLimitMessage : String :=
  "Vous avez atteint la limite de messages. Appelez-nous au 514-344-8008 pour continuer la conversation !"

/-- HTTP-visible outcome of one /chat-upload call. -/
inductive UploadOutcome where
  | throttled (detail : String)
  | clientError (detail : String)
  | serverError (detail : String)
  | ok (reply : String) (expertise_result : AnalysisRecord)
deriving DecidableEq, Repr

/-- Outcome of /chat-upload plus the number of Vision Analyzer and Chat
Responder invocations it performed. -/
structure UploadResult where
  outcome : UploadOutcome
  visionCalls : Nat
  chatCalls : Nat
deriving DecidableEq, Repr

/-- routes/chat.chat_upload_endpoint: the slowapi 10-per-hour limit on the
endpoint (checked before the handler body runs), image count and MIME
validation, the Gemini analysis, then the chat call.  The module state
`_analysis_counts` of limiter.py is in scope for the handler but never read
by it. -/
def chat_upload (_analysis_counts : QuotaState) (hourCount : Nat)
    (b64encode : String → String)
    (analyze : List ImgData → Option String → Except String AnalysisRecord)
    (system_prompt : String) (respond : List Msg → Nat → String)
    (store : String → List Msg)
    (session_id message : String) (images : List UploadImage) : UploadResult :=
  if hourCount ≥ 10 then ⟨.throttled rateLimitMessage, 0, 0⟩
  else if images.length < 1 ∨ images.length > MAX_IMAGES then
    ⟨.clientError "Veuillez envoyer entre 1 et 3 photos.", 0, 0⟩
  else
    match images.find? (fun i => !(ALLOWED_IMAGE_TYPES.contains i.content_type)) with
    | some img =>
      ⟨.clientError ("Type de fichier non supporté : " ++ img.content_type ++ "."), 0, 0⟩
    | none =>
      let images_data := images.map (fun i =>
        (⟨b64encode i.data,
          if i.content_type ≠ "" then i.content_type else "image/jpeg"⟩ : ImgData))
      match analyze images_data (if message ≠ "" then some message else none) with
      | Except.error e => ⟨.serverError e, 1, 0⟩
      | Except.ok expertise =>
        let user_message := if message ≠ "" then message
          else "J\x27ai envoyé des photos de mon piano pour une évaluation."
        let out := get_chat_response system_prompt respond user_message session_id
          (some expertise) none store
        ⟨.ok out.1 expertise, 1, 1⟩

/-! ## Theorems: C5, C6, C8, C1 -/

/-- A concrete scraped Kijiji listing carrying an image URL. -/
def kijijiListing : Listing :=
  { source := "Kijiji", url := "https://kijiji.ca/v-piano/123",
    title := some "Piano Yamaha", price := some "800$",
    images := ["https://img.kijiji.ca/1.jpg"] }

/-- A string append with a non-empty right part is non-empty. -/
lemma append_ne_empty_right (a b : String) (hb : b ≠ "") : a ++ b ≠ "" := by
  intro h
  apply hb
  have h2 : a.data ++ b.data = ([] : List Char) := by
    have h3 := congrArg String.data h
    rw [String.data_append] at h3
    exact h3
  obtain ⟨-, h4⟩ := List.append_eq_nil.mp h2
  exact congrArg String.mk h4

/-- The fallback listing context is never the empty string. -/
lemma fallbackListingContext_ne_empty (u : String) : fallbackListingContext u ≠ "" :=
  append_ne_empty_right _ _ (by decide)

/-- A non-empty listing-context block appears in the outbound messages. -/
lemma listing_block_mem (system_prompt message : String) (er : Option AnalysisRecord)
    (lc : String) (hlc : lc ≠ "") (history : List Msg) :
    (⟨"system", lc⟩ : Msg) ∈ buildMessages system_prompt message er (some lc) history := by
  cases er <;> simp [buildMessages, hlc]

/-- C5: when the message carries a URL whose fetch fails (scrape returns
None), the turn assembles the fallback minimal-context system block — a
string carrying the raw URL and the source name — includes it in the
composed prompt, performs no secondary download or vision call, and still
returns the Chat Responder reply (no failure propagates). -/
theorem scrape_fallback (scrape : String → Option Listing)
    (download : List String → List ImgData)
    (analyze : List ImgData → Option String → Except String AnalysisRecord)
    (system_prompt : String) (respond : List Msg → Nat → String)
    (store : String → List Msg) (message session_id : String)
    (er : Option AnalysisRecord) (u : String) (us : List String) (r : ChatResult)
    (hr : r = chat_endpoint scrape download analyze system_prompt respond store
      message session_id er)
    (hu : find_urls message = u :: us) (hs : scrape u = none) :
    r.listing_context = some (fallbackListingContext u) ∧
    (∃ pre post, fallbackListingContext u = pre ++ (u ++ post)) ∧
    (∃ pre post, fallbackListingContext u = pre ++ (fallbackSource u ++ post)) ∧
    (⟨"system", fallbackListingContext u⟩ : Msg) ∈ r.messagesSent ∧
    r.reply = respond r.messagesSent (tokenLimit er) ∧
    r.downloadCalls = 0 ∧ r.visionCalls = 0 := by
  subst hr
  refine ⟨?_, ?_, ?_, ?_, ?_, ?_, ?_⟩
  · simp only [chat_endpoint, hu, hs]
  · refine ⟨"Le client a partagé un lien d\x27annonce (" ++ fallbackSource u ++ ") : ",
      "\n" ++
      "IMPORTANT : Nous n\x27avons pas pu récupérer les détails de l\x27annonce automatiquement. " ++
      "Demande au client de t\x27envoyer des photos du piano avec le bouton 📎 " ++
      "pour que tu puisses faire une évaluation. Mentionne aussi qu\x27une inspection " ++
      "avant achat est toujours recommandée.", ?_⟩
    simp [fallbackListingContext, String.append_assoc]
  · refine ⟨"Le client a partagé un lien d\x27annonce (",
      ") : " ++ u ++ "\n" ++
      "IMPORTANT : Nous n\x27avons pas pu récupérer les détails de l\x27annonce automatiquement. " ++
      "Demande au client de t\x27envoyer des photos du piano avec le bouton 📎 " ++
      "pour que tu puisses faire une évaluation. Mentionne aussi qu\x27une inspection " ++
      "avant achat est toujours recommandée.", ?_⟩
    simp [fallbackListingContext, String.append_assoc]
  · have hm : (chat_endpoint scrape download analyze system_prompt respond store
        message session_id er).messagesSent =
        buildMessages system_prompt message er (some (fallbackListingContext u))
          (store session_id) := by
      simp only [chat_endpoint, hu, hs]
    rw [hm]
    exact listing_block_mem system_prompt message er _
      (fallbackListingContext_ne_empty u) (store session_id)
  · simp only [chat_endpoint, hu, hs]
    rfl
  · simp only [chat_endpoint, hu, hs]
  · simp only [chat_endpoint, hu, hs]

/-- C5 witness: a concrete message with a URL, a scraper that fails, and a
chat oracle; the fallback block is the listing context of the turn. -/
theorem scrape_fallback_witness :
    (chat_endpoint (fun _ => none) (fun _ => []) (fun _ _ => Except.ok emptyAnalysis)
        "prompt" (fun _ _ => "Bonjour!") (fun _ => [])
        "Regarde https://www.kijiji.ca/v-pianos/123 svp" "sess" none).listing_context =
      some (fallbackListingContext "https://www.kijiji.ca/v-pianos/123") :=
  (scrape_fallback (fun _ => none) (fun _ => []) (fun _ _ => Except.ok emptyAnalysis)
    "prompt" (fun _ _ => "Bonjour!") (fun _ => [])
    "Regarde https://www.kijiji.ca/v-pianos/123 svp" "sess" none
    "https://www.kijiji.ca/v-pianos/123" [] _ rfl (by decide) rfl).1

/-- C6 (amended): when the client-supplied Analysis Record is present and
non-empty (Python truthiness of the request dict), the /chat turn performs
no secondary enrichment: zero download_listing_images calls and zero
analyze_piano_images calls, even when the scraped listing carries images. -/
theorem client_analysis_skips_reanalysis (scrape : String → Option Listing)
    (download : List String → List ImgData)
    (analyze : List ImgData → Option String → Except String AnalysisRecord)
    (system_prompt : String) (respond : List Msg → Nat → String)
    (store : String → List Msg) (message session_id : String)
    (er : Option AnalysisRecord) (h : truthyAnalysis er = true) :
    (chat_endpoint scrape download analyze system_prompt respond store
        message session_id er).downloadCalls = 0 ∧
    (chat_endpoint scrape download analyze system_prompt respond store
        message session_id er).visionCalls = 0 := by
  cases hu : find_urls message with
  | nil => constructor <;> simp only [chat_endpoint, hu]
  | cons u rest =>
    cases hs : scrape u with
    | none => constructor <;> simp only [chat_endpoint, hu, hs]
    | some listing =>
      have hcond : ¬(listing.images ≠ [] ∧ ¬(truthyAnalysis er = true)) := by simp [h]
      constructor <;> simp only [chat_endpoint, hu, hs] <;> rw [if_neg hcond]

/-- C6 witness: with a non-empty client-supplied record, a listing full of
images and a willing vision oracle, no download and no vision call happen. -/
theorem client_analysis_skips_reanalysis_witness :
    (chat_endpoint (fun _ => some kijijiListing) (fun _ => [⟨"img", "image/jpeg"⟩])
        (fun _ _ => Except.ok emptyAnalysis) "prompt" (fun _ _ => "Bonjour!")
        (fun _ => []) "Regarde https://kijiji.ca/v-piano/123" "sess"
        (some histRecord)).downloadCalls = 0 ∧
    (chat_endpoint (fun _ => some kijijiListing) (fun _ => [⟨"img", "image/jpeg"⟩])
        (fun _ _ => Except.ok emptyAnalysis) "prompt" (fun _ _ => "Bonjour!")
        (fun _ => []) "Regarde https://kijiji.ca/v-piano/123" "sess"
        (some histRecord)).visionCalls = 0 :=
  client_analysis_skips_reanalysis (fun _ => some kijijiListing)
    (fun _ => [⟨"img", "image/jpeg"⟩]) (fun _ _ => Except.ok emptyAnalysis)
    "prompt" (fun _ _ => "Bonjour!") (fun _ => [])
    "Regarde https://kijiji.ca/v-piano/123" "sess" (some histRecord) (by decide)

/-- C6 counterexample: an expertise_result that is present in the request
body but is the empty dict is falsy in Python, so the code still attempts
the secondary enrichment: one download call and one vision call happen —
refuting the claim for every present client-supplied record. -/
theorem empty_analysis_reanalysis_counterexample :
    truthyAnalysis (some emptyAnalysis) = false ∧
    (chat_endpoint (fun _ => some kijijiListing) (fun _ => [⟨"img", "image/jpeg"⟩])
        (fun _ _ => Except.ok histRecord) "prompt" (fun _ _ => "Bonjour!")
        (fun _ => []) "Regarde https://kijiji.ca/v-piano/123" "sess"
        (some emptyAnalysis)).downloadCalls = 1 ∧
    (chat_endpoint (fun _ => some kijijiListing) (fun _ => [⟨"img", "image/jpeg"⟩])
        (fun _ _ => Except.ok histRecord) "prompt" (fun _ _ => "Bonjour!")
        (fun _ => []) "Regarde https://kijiji.ca/v-piano/123" "sess"
        (some emptyAnalysis)).visionCalls = 1 := by
  refine ⟨rfl, rfl, rfl⟩

/-- URL token characters as the amended claim words them: non-whitespace,
non-angle-bracket, non-quote and non-closing-parenthesis. -/
def amendedUrlChar (c : Char) : Bool :=
  !(pyWhitespace c || c = '<' || c = '>' || c = '"' || c = Char.ofNat 39 || c = ')')

/-- URL detection as the amended claim words it. -/
def findUrlsAmended (text : String) : List String :=
  scanUrls amendedUrlChar text.data.length text.data

/-- C8 (amended): URL detection finds exactly the tokens of scheme http or
https followed by a run of non-whitespace, non-angle-bracket, non-quote,
non-closing-parenthesis characters; the composer scrapes the first such
token; and a message with no such token yields a prompt with no
listing-context block. -/
theorem url_detection_amended (scrape : String → Option Listing)
    (download : List String → List ImgData)
    (analyze : List ImgData → Option String → Except String AnalysisRecord)
    (system_prompt : String) (respond : List Msg → Nat → String)
    (store : String → List Msg) (message session_id : String)
    (er : Option AnalysisRecord) :
    (∀ s : String, find_urls s = findUrlsAmended s) ∧
    (chat_endpoint scrape download analyze system_prompt respond store
        message session_id er).scrapedUrl = (find_urls message).head? ∧
    (find_urls message = [] →
      (chat_endpoint scrape download analyze system_prompt respond store
          message session_id er).listing_context = none ∧
      (chat_endpoint scrape download analyze system_prompt respond store
          message session_id er).messagesSent =
        [⟨"system", system_prompt⟩] ++ expertiseBlockClaim er ++
          store session_id ++ [⟨"user", message⟩]) := by
  refine ⟨fun s => rfl, ?_, ?_⟩
  · cases hu : find_urls message with
    | nil => simp only [chat_endpoint, hu]; rfl
    | cons u rest =>
      cases hs : scrape u with
      | none => simp only [chat_endpoint, hu, hs]; rfl
      | some listing =>
        simp only [chat_endpoint, hu, hs]
        split
        · split <;> rfl
        · rfl
  · intro hu
    constructor
    · simp only [chat_endpoint, hu]
    · simp only [chat_endpoint, hu]
      cases er with
      | none => simp [buildMessages, expertiseBlockClaim, List.append_assoc]
      | some er0 =>
        simp [buildMessages, expertiseBlockClaim, List.append_assoc]
        split_ifs <;> simp

/-- C8 witness: a message with no URL token composes a prompt with no
listing-context block. -/
theorem url_detection_amended_witness :
    (chat_endpoint (fun _ => none) (fun _ => []) (fun _ _ => Except.ok emptyAnalysis)
        "prompt" (fun _ _ => "Bonjour!") (fun _ => []) "bonjour sans lien" "sess"
        none).listing_context = none ∧
    (chat_endpoint (fun _ => none) (fun _ => []) (fun _ _ => Except.ok emptyAnalysis)
        "prompt" (fun _ _ => "Bonjour!") (fun _ => []) "bonjour sans lien" "sess"
        none).messagesSent =
      [⟨"system", "prompt"⟩] ++ expertiseBlockClaim none ++
        (fun _ => ([] : List Msg)) "sess" ++ [⟨"user", "bonjour sans lien"⟩] :=
  (url_detection_amended (fun _ => none) (fun _ => []) (fun _ _ => Except.ok emptyAnalysis)
    "prompt" (fun _ _ => "Bonjour!") (fun _ => []) "bonjour sans lien" "sess"
    none).2.2 (by decide)

/-- C1 (amended): the throttling of /chat-upload is the hourly request-rate
cap of the slowapi limiter: at that cap the endpoint returns the fixed
throttling message and performs zero Vision Analyzer and zero Chat Responder
calls; the daily vision-quota counter of limiter.py is never consulted by
the endpoint, whatever its state. -/
theorem chat_upload_throttle_amended (aq : QuotaState) (hourCount : Nat)
    (b64encode : String → String)
    (analyze : List ImgData → Option String → Except String AnalysisRecord)
    (system_prompt : String) (respond : List Msg → Nat → String)
    (store : String → List Msg) (session_id message : String)
    (images : List UploadImage) (h : hourCount ≥ 10) :
    chat_upload aq hourCount b64encode analyze system_prompt respond store
        session_id message images =
      ⟨UploadOutcome.throttled rateLimitMessage, 0, 0⟩ ∧
    ∀ aq' : QuotaState,
      chat_upload aq hourCount b64encode analyze system_prompt respond store
          session_id message images =
        chat_upload aq' hourCount b64encode analyze system_prompt respond store
          session_id message images := by
  constructor
  · unfold chat_upload
    rw [if_pos h]
  · intro aq'
    rfl

/-- C1 witness: at the hourly cap the endpoint throttles with the fixed
message and performs no provider call. -/
theorem chat_upload_throttle_witness :
    chat_upload (fun _ => none) 10 (fun d => d) (fun _ _ => Except.ok emptyAnalysis)
        "prompt" (fun _ _ => "Bonjour!") (fun _ => []) "sess" "msg"
        [⟨"image/jpeg", "data"⟩] =
      ⟨UploadOutcome.throttled rateLimitMessage, 0, 0⟩ :=
  (chat_upload_throttle_amended (fun _ => none) 10 (fun d => d)
    (fun _ _ => Except.ok emptyAnalysis) "prompt" (fun _ _ => "Bonjour!")
    (fun _ => []) "sess" "msg" [⟨"image/jpeg", "data"⟩] (by decide)).1

/-- An _analysis_counts state in which a client key has reached the daily
vision-call cap today (day 7). -/
def cappedQuota : QuotaState :=
  fun ip => if ip = "203.0.113.5" then some ⟨7, 3⟩ else none

/-- C1 counterexample: with the vision-call quota at its cap for the client
key (can_analyze is false) but the hourly request count below its cap,
/chat-upload does not throttle: it performs one Vision Analyzer call and one
Chat Responder call and returns the reply — refuting the claim that a
capped vision quota makes /chat-upload return the throttling message with
zero provider calls. -/
theorem chat_upload_vision_quota_counterexample :
    can_analyze 7 cappedQuota "203.0.113.5" = false ∧
    (chat_upload cappedQuota 0 (fun d => d) (fun _ _ => Except.ok emptyAnalysis)
        "prompt" (fun _ _ => "Bonjour!") (fun _ => []) "sess" "ma photo"
        [⟨"image/jpeg", "abc"⟩]).visionCalls = 1 ∧
    (chat_upload cappedQuota 0 (fun d => d) (fun _ _ => Except.ok emptyAnalysis)
        "prompt" (fun _ _ => "Bonjour!") (fun _ => []) "sess" "ma photo"
        [⟨"image/jpeg", "abc"⟩]).chatCalls = 1 ∧
    (chat_upload cappedQuota 0 (fun d => d) (fun _ _ => Except.ok emptyAnalysis)
        "prompt" (fun _ _ => "Bonjour!") (fun _ => []) "sess" "ma photo"
        [⟨"image/jpeg", "abc"⟩]).outcome =
      UploadOutcome.ok "Bonjour!" emptyAnalysis := by
  refine ⟨rfl, rfl, rfl, rfl⟩

end PTM
